import Mathlib

/-!
Shallow embedding of the instamap aggregation-and-caching core
(`src/app/main.py`, `src/app/overpass.py`, `src/app/instagram.py`,
`src/app/yelp.py`, `src/app/models.py`).

Network effects are modelled by passing each handler the outcome of its
upstream calls as an explicit argument: a fetch that may time out is an
`Option` value (`none` = the `asyncio.wait_for` deadline fired), a fetch
that may raise is an `Except String` value (`.error e` = the exception
text), and an HTTP JSON body is the already-decoded typed payload.
Python `float` values that are only copied, never computed with, are
modelled as `ℚ`; `time.time()` instants as `Int`.  The process-wide
`dict` caches are association lists where a write prepends (lookup finds
the newest binding, which is exactly the visible behaviour of an
overwriting `dict` write).  Each handler returns, besides its response,
the updated cache and a `Bool` recording whether it performed an
upstream fetch (`false` = served from cache with no network activity).
-/

namespace Instamap

/-! ### Data model (models.py) -/

/-- `models.InstagramPost`. -/
structure InstagramPost where
  shortcode : String
  url : String
  image_url : String
  caption : String
  likes : Int
  timestamp : String
  location_name : Option String
  username : String
  post_category : String
  lat : Option ℚ
  lon : Option ℚ
deriving DecidableEq, Repr

/-- `models.YelpBusiness`. -/
structure YelpBusiness where
  id : String
  name : String
  url : String
  rating : ℚ
  review_count : Int
  price : Option String
  categories : List String
  address : String
  image_url : Option String
  lat : Option ℚ
  lon : Option ℚ
deriving DecidableEq, Repr

/-- `models.FoursquarePlace` (reused as the OSM place shape). -/
structure FoursquarePlace where
  fsq_id : String
  name : String
  categories : List String
  address : Option String
  distance : Option Int
  link : Option String
  lat : Option ℚ
  lon : Option ℚ
deriving DecidableEq, Repr

/-- `models.PlacesResponse`. -/
structure PlacesResponse where
  location : String
  category : String
  location_lat : Option ℚ
  location_lon : Option ℚ
  yelp_businesses : List YelpBusiness
  osm_eat : List FoursquarePlace
  osm_do : List FoursquarePlace
  osm_sleep : List FoursquarePlace
  warnings : List String
deriving DecidableEq, Repr

/-- A latitude/longitude pair. -/
abbrev Coords := ℚ × ℚ

/-- Python `str.lower()`: lowercase character by character. -/
def pyLower (s : String) : String :=
  String.mk (s.toList.map Char.toLower)

/-- Python `str.strip()`: drop whitespace from both ends. -/
def pyStrip (s : String) : String :=
  String.mk
    (((s.toList.dropWhile Char.isWhitespace).reverse.dropWhile
        Char.isWhitespace).reverse)

/-- The key normalization every cache key uses:
`location.lower().strip()`. -/
def normalizeKey (s : String) : String := pyStrip (pyLower s)

/-! ### Caches (main.py lines 22-26, overpass.py line 25) -/

/-- Association-list lookup used to model Python `dict.get`. -/
def cacheLookup {κ α : Type} [DecidableEq κ] : List (κ × α) → κ → Option α
  | [], _ => none
  | (k, v) :: rest, key => if key = k then some v else cacheLookup rest key

/-- Model of a Python `dict` write `cache[key] = v`: prepend, so that
`cacheLookup` sees the newest binding for the key. -/
def cacheInsert {κ α : Type} [DecidableEq κ] (c : List (κ × α)) (k : κ) (v : α) :
    List (κ × α) :=
  (k, v) :: c

/-- `_CACHE_TTL = 1800` (main.py line 26). -/
def cacheTTL : Int := 1800

/-- The fresh-hit test every handler performs:
`cached = cache.get(key)` followed by
`if cached and time.time() - cached[0] < _CACHE_TTL: return cached[1]`. -/
def freshLookup {κ α : Type} [DecidableEq κ]
    (cache : List (κ × (Int × α))) (now : Int) (key : κ) : Option α :=
  match cacheLookup cache key with
  | some (t, v) => if now - t < cacheTTL then some v else none
  | none => none

/-- `_places_cache : dict[tuple[str, str], tuple[float, PlacesResponse]]`. -/
abbrev PlacesCache := List ((String × String) × (Int × PlacesResponse))

/-- `_ig_cache : dict[tuple[str, str], tuple[float, list[InstagramPost]]]`. -/
abbrev IgCache := List ((String × String) × (Int × List InstagramPost))

/-- `_followee_cache`, same shape as `_ig_cache`. -/
abbrev FolloweeCache := IgCache

/-- `_with_timeout(coro, timeout, default)` (main.py lines 29-33): the coroutine
outcome is `some v` when it finished within the deadline and `none` when
`asyncio.wait_for` raised `TimeoutError`, in which case the default is used. -/
def withTimeout {α : Type} (outcome : Option α) (default : α) : α :=
  outcome.getD default

/-- The tuple returned by `search_osm`: `(eat, do, sleep, warnings, coords)`. -/
abbrev OsmResult :=
  List FoursquarePlace × List FoursquarePlace × List FoursquarePlace ×
    List String × Option Coords

/-- The timeout default `search_places` passes to `_with_timeout` for the
OSM fetch (main.py line 66). -/
def osmTimeoutDefault : OsmResult := ([], [], [], ["OSM: request timed out"], none)

/-- The upstream outcomes visible to one `search_places` invocation:
the geocode task (outer 8 s deadline, default `None`) and the
`search_osm` call (outer 22 s deadline). -/
structure PlacesFetchEnv where
  geoOutcome : Option (Option Coords)
  osmOutcome : Option OsmResult

/-- `search_places` (main.py lines 46-84).  Returns the response, the updated
`_places_cache`, and whether an upstream fetch was performed. -/
def searchPlaces (cache : PlacesCache) (now : Int) (env : PlacesFetchEnv)
    (location category : String) : PlacesResponse × PlacesCache × Bool :=
  let key := (normalizeKey location, category)
  match freshLookup cache now key with
  | some v => (v, cache, false)
  | none =>
    let osmRes := withTimeout env.osmOutcome osmTimeoutDefault
    let osmEat := osmRes.1
    let osmDo := osmRes.2.1
    let osmSleep := osmRes.2.2.1
    let osmWarn := osmRes.2.2.2.1
    let osmCoords := osmRes.2.2.2.2
    let coords := osmCoords.orElse fun _ => withTimeout env.geoOutcome none
    let result : PlacesResponse :=
      { location := location
        category := category
        location_lat := coords.map Prod.fst
        location_lon := coords.map Prod.snd
        yelp_businesses := []
        osm_eat := osmEat
        osm_do := osmDo
        osm_sleep := osmSleep
        warnings := osmWarn }
    (result, cacheInsert cache key (now, result), true)

/-- Insert a post into a likes-descending sorted list, after every element
with at least as many likes — so that an element earlier in the original
list stays ahead of equal-likes elements, as in Python's stable sort. -/
def insertByLikes (p : InstagramPost) : List InstagramPost → List InstagramPost
  | [] => [p]
  | q :: rest =>
    if q.likes ≤ p.likes then p :: q :: rest else q :: insertByLikes p rest

/-- Stable descending sort by like count:
`posts.sort(key=lambda p: p.likes, reverse=True)` (main.py lines 103, 125).
Python's sort is stable; insertion sort with `insertByLikes` is too. -/
def sortByLikesDesc : List InstagramPost → List InstagramPost
  | [] => []
  | p :: rest => insertByLikes p (sortByLikesDesc rest)

/-- `search_instagram_endpoint` (main.py lines 87-106).  `igOutcome` is the
outcome of `search_instagram` under the outer 25 s deadline. -/
def searchInstagramEndpoint (cache : IgCache) (now : Int)
    (igOutcome : Option (List InstagramPost × List String))
    (location category : String) : List InstagramPost × IgCache × Bool :=
  let key := (normalizeKey location, category)
  match freshLookup cache now key with
  | some v => (v, cache, false)
  | none =>
    let fetched := withTimeout igOutcome ([], [])
    let posts := sortByLikesDesc fetched.1
    if posts.isEmpty then (posts, cache, true)
    else (posts, cacheInsert cache key (now, posts), true)

/-- The post list a miss of the Instagram-style endpoints computes before
deciding whether to cache: the fetched (or timeout-default) posts, sorted
descending by likes (main.py lines 98-103 and 120-125). -/
def igFetchedPosts (igOutcome : Option (List InstagramPost × List String)) :
    List InstagramPost :=
  sortByLikesDesc (withTimeout igOutcome ([], [])).1

/-- `search_followees_endpoint` (main.py lines 109-128).  `fwOutcome` is the
outcome of `search_followee_posts` under the outer 35 s deadline. -/
def searchFolloweesEndpoint (cache : FolloweeCache) (now : Int)
    (fwOutcome : Option (List InstagramPost × List String))
    (location igUsername : String) : List InstagramPost × FolloweeCache × Bool :=
  let key := (normalizeKey igUsername, normalizeKey location)
  match freshLookup cache now key with
  | some v => (v, cache, false)
  | none =>
    let fetched := withTimeout fwOutcome ([], [])
    let posts := sortByLikesDesc fetched.1
    if posts.isEmpty then (posts, cache, true)
    else (posts, cacheInsert cache key (now, posts), true)

/-! ### Map-data adapter (overpass.py) -/

/-- `_OVERPASS_MIRRORS` (overpass.py lines 9-13). -/
def overpassMirrors : List String :=
  ["https://overpass-api.de/api/interpreter",
   "https://overpass.kumi.systems/api/interpreter",
   "https://maps.mail.ru/osm/tools/overpass/api/interpreter"]

/-- `_EAT_AMENITY` (overpass.py line 51). -/
def eatAmenity : List String :=
  ["restaurant", "cafe", "bar", "pub", "fast_food", "food_court", "bistro"]

/-- `_SLEEP_TOURISM` (overpass.py line 52). -/
def sleepTourism : List String :=
  ["hotel", "hostel", "guest_house", "motel", "apartment"]

/-- `_geocode_cache` (overpass.py line 25). -/
abbrev GeocodeCache := List (String × Coords)

/-- `_geocode` (overpass.py lines 55-72).  `httpOutcome` is the decoded
Nominatim response: `.error e` for any raised exception (transport error,
non-2xx status via `raise_for_status`, JSON or `float()` parse failure),
`.ok results` for a successful request, each result already reduced to the
`(float(lat), float(lon))` pair the code extracts.  Returns the coordinates
(or `none`), the updated cache, and whether a network request was issued. -/
def geocode (cache : GeocodeCache) (httpOutcome : Except String (List Coords))
    (location : String) : Option Coords × GeocodeCache × Bool :=
  let key := normalizeKey location
  match cacheLookup cache key with
  | some c => (some c, cache, false)
  | none =>
    match httpOutcome with
    | .error _ => (none, cache, true)
    | .ok [] => (none, cache, true)
    | .ok (c :: _) => (some c, cacheInsert cache key c, true)

/-- One raw Overpass element, restricted to the fields `search_osm` and
`_parse_elements` read: `type` (with the code's default `"node"` folded in),
`id`, the `tags` mapping, the node coordinates, and the way `center`. -/
structure OsmElement where
  etype : String
  id : Int
  tags : List (String × String)
  lat : Option ℚ
  lon : Option ℚ
  center_lat : Option ℚ
  center_lon : Option ℚ
deriving DecidableEq, Repr

/-- `tags_el.get(k)` on an element's tag mapping. -/
def tagGet (tags : List (String × String)) (k : String) : Option String :=
  cacheLookup tags k

/-- The bucket an element is routed to by `search_osm`'s classifier. -/
inductive Bucket
  | eat
  | sleep
  | activities
deriving DecidableEq, Repr

/-- `tags_el.get("amenity", "") in _EAT_AMENITY` (overpass.py line 165). -/
def eatTest (el : OsmElement) : Prop :=
  (tagGet el.tags "amenity").getD "" ∈ eatAmenity

instance (el : OsmElement) : Decidable (eatTest el) := by
  unfold eatTest; infer_instance

/-- `tags_el.get("tourism", "") in _SLEEP_TOURISM` (overpass.py line 167). -/
def sleepTest (el : OsmElement) : Prop :=
  (tagGet el.tags "tourism").getD "" ∈ sleepTourism

instance (el : OsmElement) : Decidable (sleepTest el) := by
  unfold sleepTest; infer_instance

/-- The classifier of `search_osm` (overpass.py lines 163-170): amenity
membership is checked first, tourism membership second, everything else
falls through to the `do` (activities) bucket. -/
def classifyElement (el : OsmElement) : Bucket :=
  if eatTest el then .eat
  else if sleepTest el then .sleep
  else .activities

/-- The same two membership tests as `classifyElement`, checked in the
opposite order (tourism first).  This definition follows the claim's words —
"the bucket assignment does not depend on the order in which the membership
sets are checked" — and exists only to be compared with `classifyElement`. -/
def classifyElementSleepFirst (el : OsmElement) : Bucket :=
  if sleepTest el then .sleep
  else if eatTest el then .eat
  else .activities

/-- The `for el in elements` partition loop of `search_osm`
(overpass.py lines 162-170), producing `(eat_els, sleep_els, do_els)`. -/
def partitionElements : List OsmElement → List OsmElement × List OsmElement × List OsmElement
  | [] => ([], [], [])
  | el :: rest =>
    let p := partitionElements rest
    if eatTest el then (el :: p.1, p.2.1, p.2.2)
    else if sleepTest el then (p.1, el :: p.2.1, p.2.2)
    else (p.1, p.2.1, el :: p.2.2)

/-- `name = tags_el.get("name") or tags_el.get("name:en")` followed by the
`if not name` skip (overpass.py lines 89-91): the first truthy of the two
tag values, `none` when both are missing or empty. -/
def elementName (el : OsmElement) : Option String :=
  let n1 := (tagGet el.tags "name").getD ""
  let n := if n1 = "" then (tagGet el.tags "name:en").getD "" else n1
  if n = "" then none else some n

/-- One step of Python `str.title()`: uppercase a cased character that
follows a non-alphabetic character, lowercase the rest. -/
def titleCaseGo : Bool → List Char → List Char
  | _, [] => []
  | prevAlpha, c :: rest =>
    let c2 := if c.isAlpha then (if prevAlpha then c.toLower else c.toUpper) else c
    c2 :: titleCaseGo c.isAlpha rest

/-- Python `str.title()` as used on tag values in `_parse_elements`. -/
def titleCase (s : String) : String :=
  String.mk (titleCaseGo false s.toList)

/-- The category list built by `_parse_elements` (overpass.py lines 94-98):
`tags_el[k].replace("_", " ").title()` for each present key among
amenity/tourism/leisure/shop, in that order. -/
def elementCategories (el : OsmElement) : List String :=
  (["amenity", "tourism", "leisure", "shop"]).filterMap fun k =>
    (tagGet el.tags k).map fun v => titleCase (v.replace "_" " ")

/-- The record built for one kept element in `_parse_elements`
(overpass.py lines 99-127). -/
def mkPlace (el : OsmElement) (name : String) : FoursquarePlace :=
  let addrParts := [(tagGet el.tags "addr:housenumber").getD "",
                    (tagGet el.tags "addr:street").getD "",
                    (tagGet el.tags "addr:city").getD ""]
  let present := addrParts.filter fun p => p ≠ ""
  let address := if present = [] then none else some (String.intercalate ", " present)
  let link := "https://www.openstreetmap.org/" ++ el.etype ++ "/" ++ toString el.id
  let lat := if el.etype = "node" then el.lat else el.center_lat
  let lon := if el.etype = "node" then el.lon else el.center_lon
  { fsq_id := toString el.id
    name := name
    categories := elementCategories el
    address := address
    distance := none
    link := some link
    lat := lat
    lon := lon }

/-- The loop body of `_parse_elements` (overpass.py lines 84-130): skip
elements without a usable name, dedupe by display name via the `seen` set,
and stop once `limit` places have been appended. -/
def parseElementsGo (limit : Nat) :
    List OsmElement → List String → Nat → List FoursquarePlace
  | [], _, _ => []
  | el :: rest, seen, count =>
    match elementName el with
    | none => parseElementsGo limit rest seen count
    | some name =>
      if name ∈ seen then parseElementsGo limit rest seen count
      else
        let place := mkPlace el name
        if limit ≤ count + 1 then [place]
        else place :: parseElementsGo limit rest (name :: seen) (count + 1)

/-- `_parse_elements(elements, limit)`. -/
def parseElements (els : List OsmElement) (limit : Nat) : List FoursquarePlace :=
  parseElementsGo limit els [] 0

/-- The `for mirror in _OVERPASS_MIRRORS` loop with `for`/`else`
(overpass.py lines 148-159): try each mirror in order, keep the first
successful element list, and carry `last_exc` into the `else` branch when
every mirror raised. -/
def tryMirrors (fetch : String → Except String (List OsmElement)) :
    List String → Option String → Except (Option String) (List OsmElement)
  | [], lastExc => .error lastExc
  | m :: rest, lastExc =>
    match fetch m with
    | .ok els => .ok els
    | .error e => tryMirrors fetch rest (some e)

/-- The mirrors the loop actually contacts, in chronological order: every
failing mirror up to and including the first successful one. -/
def contactedMirrors (fetch : String → Except String (List OsmElement)) :
    List String → List String
  | [] => []
  | m :: rest =>
    match fetch m with
    | .ok _ => [m]
    | .error _ => m :: contactedMirrors fetch rest

/-- `search_osm(location, category)` (overpass.py lines 133-181).
`geocodeResult` is the outcome of the `_geocode(location)` call the function
starts with; `fetch` maps a mirror URL to the decoded element list of the
POST against it or the raised exception's text.  The `category` parameter
is kept for API compatibility and, as in the source, unused. -/
def searchOsm (geocodeResult : Option Coords)
    (fetch : String → Except String (List OsmElement))
    (location : String) (category : String) : OsmResult :=
  match geocodeResult with
  | none =>
    ([], [], [], ["OpenStreetMap: could not geocode \x27" ++ location ++ "\x27"], none)
  | some coords =>
    match tryMirrors fetch overpassMirrors none with
    | .error lastExc =>
      ([], [], [], ["OpenStreetMap unavailable: " ++ lastExc.getD "None"], some coords)
    | .ok elements =>
      let p := partitionElements elements
      (parseElements p.1 12, parseElements p.2.2 12, parseElements p.2.1 12,
       [], some coords)

/-! ### Social adapter (instagram.py) -/

/-- `_slug(location)` (instagram.py lines 93-94):
`re.sub(r"[^a-z0-9]", "", location.lower())`. -/
def slug (location : String) : String :=
  String.mk ((pyLower location).toList.filter fun c =>
    decide ('a' ≤ c ∧ c ≤ 'z') || decide ('0' ≤ c ∧ c ≤ '9'))

/-- The order-preserving dedup at the end of `_hashtags_for`
(instagram.py lines 109-110). -/
def dedupStrings : List String → List String → List String
  | [], _ => []
  | t :: rest, seen =>
    if t ∈ seen then dedupStrings rest seen
    else t :: dedupStrings rest (t :: seen)

/-- `_hashtags_for(location, category)` (instagram.py lines 97-110). -/
def hashtagsFor (location category : String) : List String :=
  let s := slug location
  let t1 := if category = "eat" ∨ category = "all" then
      [s ++ "food", s ++ "foodie", s ++ "eats", s ++ "cafe"] else []
  let t2 := if category = "do" ∨ category = "all" then
      [s, "visit" ++ s, "thingstodoin" ++ s, s ++ "life"] else []
  let t3 := if category = "sleep" ∨ category = "all" then
      [s ++ "hotel", s ++ "hotels", s ++ "airbnb", s ++ "stay"] else []
  dedupStrings (t1 ++ t2 ++ t3) []

/-- The fixed category order of `_search_sync`'s outer loop
(instagram.py line 197). -/
def igCats : List String := ["eat", "do", "sleep"]

/-- The warning `_search_sync` emits when a category's hashtags are
exhausted (instagram.py line 210). -/
def noResultsWarning (location cat : String) : String :=
  "No Instagram results for " ++ location ++ " (" ++ cat ++ ")"

/-- The inner `for tag in tags` loop of `_search_sync` (instagram.py lines
199-208): fetch tags sequentially and return the first non-empty fetch,
or `none` when every tag yielded nothing (the `for`/`else` case). -/
def tryTagsFirst (fetchTag : String → List InstagramPost) :
    List String → Option (List InstagramPost)
  | [] => none
  | t :: rest =>
    let fetched := fetchTag t
    if fetched = [] then tryTagsFirst fetchTag rest else some fetched

/-- The tags the inner loop actually fetches, in chronological order: every
empty-yielding tag up to and including the first tag that yields results. -/
def fetchedTags (fetchTag : String → List InstagramPost) :
    List String → List String
  | [] => []
  | t :: rest =>
    if fetchTag t = [] then t :: fetchedTags fetchTag rest else [t]

/-- The tags `_search_sync` fetches for one category: the inner loop runs
over `_hashtags_for(location, cat)[:3]` (instagram.py line 198). -/
def fetchedTagsForCat (fetchTag : String → List InstagramPost)
    (location cat : String) : List String :=
  fetchedTags fetchTag ((hashtagsFor location cat).take 3)

/-- The merge of one successful fetch into the running result
(instagram.py lines 202-206): skip posts whose shortcode is already in
`seen`, otherwise record the shortcode, stamp the post with the current
category, and append it. -/
def mergeFetched (cat : String) :
    List InstagramPost → List String → List InstagramPost →
      List String × List InstagramPost
  | [], seen, acc => (seen, acc)
  | p :: rest, seen, acc =>
    if p.shortcode ∈ seen then mergeFetched cat rest seen acc
    else mergeFetched cat rest (p.shortcode :: seen)
      (acc ++ [{ p with post_category := cat }])

/-- The outer `for cat in ("eat", "do", "sleep")` loop of `_search_sync`
(instagram.py lines 197-210), threading the `seen` set, the accumulated
posts and the accumulated warnings. -/
def searchSyncGo (fetchTag : String → List InstagramPost) (location : String) :
    List String → List String → List InstagramPost → List String →
      List InstagramPost × List String
  | [], _, acc, warns => (acc, warns)
  | cat :: cats, seen, acc, warns =>
    match tryTagsFirst fetchTag ((hashtagsFor location cat).take 3) with
    | some fetched =>
      let sa := mergeFetched cat fetched seen acc
      searchSyncGo fetchTag location cats sa.1 sa.2 warns
    | none =>
      searchSyncGo fetchTag location cats seen acc
        (warns ++ [noResultsWarning location cat])

/-- `_search_sync(location)` (instagram.py lines 187-212).  `loginErr` is
the outcome of `_ensure_login()` (`some msg` = login failed with that
warning); `fetchTag` is the outcome of `_fetch_tag(tag, limit=9)` for each
hashtag (already truncated to 9 posts and empty on any fetch exception,
as in the source). -/
def searchSync (loginErr : Option String)
    (fetchTag : String → List InstagramPost) (location : String) :
    List InstagramPost × List String :=
  match loginErr with
  | some e => ([], [e])
  | none => searchSyncGo fetchTag location igCats [] [] []

/-- `search_instagram(location, category)` (instagram.py lines 215-219):
runs `_search_sync(location)` on the single-worker executor; the `category`
parameter is kept for API compatibility and, as in the source, unused. -/
def searchInstagram (loginErr : Option String)
    (fetchTag : String → List InstagramPost)
    (location : String) (category : String) :
    List InstagramPost × List String :=
  searchSync loginErr fetchTag location

/-! ### Reviews adapter (yelp.py) -/

/-- One raw Yelp business record, restricted to the fields `search_yelp`
reads, with the inner comprehensions already decoded: `categories` holds the
`c["title"]` values and `display_address` the `location.display_address`
list. -/
structure RawBusiness where
  id : String
  name : String
  url : String
  rating : ℚ
  review_count : Int
  price : Option String
  categories : List String
  display_address : List String
  image_url : Option String
  latitude : Option ℚ
  longitude : Option ℚ
deriving DecidableEq, Repr

/-- Python `x or None` on an optional string (`b.get("image_url") or None`,
yelp.py line 57): an empty string is falsy and becomes `None`. -/
def orNoneStr : Option String → Option String
  | some s => if s = "" then none else some s
  | none => none

/-- Python `x or None` on an optional float (`coords.get("latitude") or
None`, yelp.py lines 58-59): the float `0.0` is falsy and becomes `None`. -/
def orNoneRat : Option ℚ → Option ℚ
  | some q => if q = 0 then none else some q
  | none => none

/-- The `YelpBusiness` built for one raw record (yelp.py lines 44-61). -/
def parseBusiness (b : RawBusiness) : YelpBusiness :=
  { id := b.id
    name := b.name
    url := b.url
    rating := b.rating
    review_count := b.review_count
    price := b.price
    categories := b.categories
    address := String.intercalate ", " b.display_address
    image_url := orNoneStr b.image_url
    lat := orNoneRat b.latitude
    lon := orNoneRat b.longitude }

/-- `search_yelp(location, category)` (yelp.py lines 21-65).  `apiKey` is
`os.getenv("YELP_API_KEY", "")`; `httpOutcome` is the decoded response of
the one Yelp request (`.error e` = any raised exception's text, `.ok bs` =
the `businesses` array).  The function performs no local sorting: it maps
the raw records to `YelpBusiness` values in upstream order. -/
def searchYelp (apiKey : String) (httpOutcome : Except String (List RawBusiness))
    (location category : String) : List YelpBusiness × List String :=
  if apiKey = "" then
    ([], ["Yelp: set YELP_API_KEY in .env to enable restaurant results"])
  else
    match httpOutcome with
    | .error e => ([], ["Yelp search failed: " ++ e])
    | .ok bs => (bs.map parseBusiness, [])

/-! ### Concrete instances used by witnesses and counterexamples -/

/-- An environment in which both the OSM fetch and the geocode task hit
their outer deadlines. -/
def placesTimeoutEnv : PlacesFetchEnv := { geoOutcome := none, osmOutcome := none }

/-- A mirror oracle under which every Overpass mirror raises. -/
def mirrorFailAll : String → Except String (List OsmElement) :=
  fun _ => .error "503 Service Unavailable"

/-- A mirror oracle under which the first mirror raises and the second
succeeds with no elements. -/
def mirrorSecondOk : String → Except String (List OsmElement) := fun m =>
  if m = "https://overpass.kumi.systems/api/interpreter" then .ok []
  else .error "timed out"

/-- An OSM element carrying both `amenity=restaurant` (eat membership) and
`tourism=hotel` (sleep membership). -/
def dualTagElement : OsmElement :=
  { etype := "node"
    id := 1
    tags := [("amenity", "restaurant"), ("tourism", "hotel"), ("name", "Grand")]
    lat := some 1
    lon := some 2
    center_lat := none
    center_lon := none }

/-- An OSM element with only `amenity=restaurant`. -/
def eatOnlyElement : OsmElement :=
  { etype := "node"
    id := 2
    tags := [("amenity", "restaurant"), ("name", "Bistro")]
    lat := some 1
    lon := some 2
    center_lat := none
    center_lon := none }

/-- An OSM element with only `tourism=hotel`. -/
def sleepOnlyElement : OsmElement :=
  { etype := "node"
    id := 3
    tags := [("tourism", "hotel"), ("name", "Inn")]
    lat := some 1
    lon := some 2
    center_lat := none
    center_lon := none }

/-- An OSM element matching neither membership set. -/
def plainElement : OsmElement :=
  { etype := "way"
    id := 4
    tags := [("leisure", "park"), ("name", "Green")]
    lat := none
    lon := none
    center_lat := some 3
    center_lon := some 4 }

/-- A raw Yelp record with rating 5.0 and 1 review (the claim's record A). -/
def rawFiveStarOneReview : RawBusiness :=
  { id := "a"
    name := "A"
    url := "https://www.yelp.com/biz/a"
    rating := 5
    review_count := 1
    price := none
    categories := []
    display_address := []
    image_url := none
    latitude := none
    longitude := none }

/-- A raw Yelp record with rating 4.0 and 200 reviews (the claim's record B). -/
def rawFourStarManyReviews : RawBusiness :=
  { id := "b"
    name := "B"
    url := "https://www.yelp.com/biz/b"
    rating := 4
    review_count := 200
    price := none
    categories := []
    display_address := []
    image_url := none
    latitude := none
    longitude := none }

/-- A concrete Instagram post. -/
def samplePost : InstagramPost :=
  { shortcode := "abc"
    url := "https://www.instagram.com/p/abc/"
    image_url := ""
    caption := "x"
    likes := 3
    timestamp := ""
    location_name := none
    username := "u"
    post_category := "all"
    lat := none
    lon := none }

/-- The same shortcode as `samplePost`, rediscovered by a different fetch
pass with a different caption. -/
def samplePostVariant : InstagramPost :=
  { shortcode := "abc"
    url := "https://www.instagram.com/p/abc/"
    image_url := ""
    caption := "duplicate discovery"
    likes := 9
    timestamp := ""
    location_name := none
    username := "v"
    post_category := "all"
    lat := none
    lon := none }

/-- A hashtag oracle under which only `pariscafe` — the fourth eat
candidate of `_hashtags_for("paris", "eat")` — yields a post. -/
def fetchOnlyFourth : String → List InstagramPost := fun t =>
  if t = "pariscafe" then [samplePost] else []

/-- A hashtag oracle under which only `pariseats` — the third eat
candidate — yields a post. -/
def fetchThirdOk : String → List InstagramPost := fun t =>
  if t = "pariseats" then [samplePost] else []

/-- A hashtag oracle under which no tag yields anything. -/
def fetchNone : String → List InstagramPost := fun _ => []

/-- A hashtag oracle under which an eat-pass tag and a do-pass tag both
return a post with the same shortcode. -/
def fetchDup : String → List InstagramPost := fun t =>
  if t = "parisfood" then [samplePost]
  else if t = "paris" then [samplePostVariant]
  else []

/-! ### Helper lemmas -/

theorem freshLookup_cacheInsert {κ α : Type} [DecidableEq κ]
    (cache : List (κ × (Int × α))) (now t : Int) (key : κ) (v : α) :
    freshLookup (cacheInsert cache key (t, v)) now key =
      if now - t < cacheTTL then some v else none := by
  simp [freshLookup, cacheInsert, cacheLookup]

theorem sortByLikesDesc_nil : sortByLikesDesc [] = [] := by
  simp [sortByLikesDesc]

theorem searchPlaces_of_hit (cache : PlacesCache) (now : Int)
    (env : PlacesFetchEnv) (location category : String) (v : PlacesResponse)
    (h : freshLookup cache now (normalizeKey location, category) = some v) :
    searchPlaces cache now env location category = (v, cache, false) := by
  simp [searchPlaces, h]

theorem searchPlaces_of_miss (cache : PlacesCache) (now : Int)
    (env : PlacesFetchEnv) (location category : String)
    (h : freshLookup cache now (normalizeKey location, category) = none) :
    (searchPlaces cache now env location category).2.1 =
      cacheInsert cache (normalizeKey location, category)
        (now, (searchPlaces cache now env location category).1) ∧
    (searchPlaces cache now env location category).2.2 = true := by
  simp [searchPlaces, h]

theorem searchIg_of_hit (cache : IgCache) (now : Int)
    (igOutcome : Option (List InstagramPost × List String))
    (location category : String) (v : List InstagramPost)
    (h : freshLookup cache now (normalizeKey location, category) = some v) :
    searchInstagramEndpoint cache now igOutcome location category =
      (v, cache, false) := by
  simp [searchInstagramEndpoint, h]

theorem searchIg_of_miss_empty (cache : IgCache) (now : Int)
    (igOutcome : Option (List InstagramPost × List String))
    (location category : String)
    (h : freshLookup cache now (normalizeKey location, category) = none)
    (hE : igFetchedPosts igOutcome = []) :
    searchInstagramEndpoint cache now igOutcome location category =
      ([], cache, true) := by
  have : igFetchedPosts igOutcome = sortByLikesDesc (withTimeout igOutcome ([], [])).1 := rfl
  rw [this] at hE
  simp [searchInstagramEndpoint, h, hE]

theorem searchIg_of_miss_nonempty (cache : IgCache) (now : Int)
    (igOutcome : Option (List InstagramPost × List String))
    (location category : String)
    (h : freshLookup cache now (normalizeKey location, category) = none)
    (hne : igFetchedPosts igOutcome ≠ []) :
    searchInstagramEndpoint cache now igOutcome location category =
      (igFetchedPosts igOutcome,
       cacheInsert cache (normalizeKey location, category)
         (now, igFetchedPosts igOutcome), true) := by
  have hE : (sortByLikesDesc (withTimeout igOutcome ([], [])).1).isEmpty = false := by
    simpa [igFetchedPosts, List.isEmpty_iff] using hne
  simp [searchInstagramEndpoint, h, hE, igFetchedPosts]

theorem searchFw_of_hit (cache : FolloweeCache) (now : Int)
    (fwOutcome : Option (List InstagramPost × List String))
    (location igUsername : String) (v : List InstagramPost)
    (h : freshLookup cache now (normalizeKey igUsername, normalizeKey location) = some v) :
    searchFolloweesEndpoint cache now fwOutcome location igUsername =
      (v, cache, false) := by
  simp [searchFolloweesEndpoint, h]

theorem searchFw_of_miss_empty (cache : FolloweeCache) (now : Int)
    (fwOutcome : Option (List InstagramPost × List String))
    (location igUsername : String)
    (h : freshLookup cache now (normalizeKey igUsername, normalizeKey location) = none)
    (hE : igFetchedPosts fwOutcome = []) :
    searchFolloweesEndpoint cache now fwOutcome location igUsername =
      ([], cache, true) := by
  have : igFetchedPosts fwOutcome = sortByLikesDesc (withTimeout fwOutcome ([], [])).1 := rfl
  rw [this] at hE
  simp [searchFolloweesEndpoint, h, hE]

/-! ### Claims -/

/-- C10: the fetch results of the map-data adapter and the social hashtag
adapter are independent of the `category` argument: for every location and
any two category values, `search_osm` returns the same value (all three
buckets are always fetched from one combined query) and `search_instagram`
returns the same value (all three per-category hashtag passes always run in
`_search_sync`, which never receives the category). -/
theorem c10_category_independent :
    (∀ geocodeResult fetch location c1 c2,
      searchOsm geocodeResult fetch location c1 =
        searchOsm geocodeResult fetch location c2) ∧
    (∀ loginErr fetchTag location c1 c2,
      searchInstagram loginErr fetchTag location c1 =
        searchInstagram loginErr fetchTag location c2) := by
  exact ⟨fun _ _ _ _ _ => rfl, fun _ _ _ _ _ => rfl⟩

/-- C5: on a fresh cache hit (entry younger than the 1800 s TTL) each
handler returns exactly the cached value, leaves the cache unchanged and
performs no upstream fetch (third component `false`); consequently the
second of two identical requests within the TTL window — the first having
populated the cache — returns the first request's data with no new
upstream call. -/
theorem c5_fresh_hit_serves_cache :
    (∀ cache now env location category v,
      freshLookup cache now (normalizeKey location, category) = some v →
      searchPlaces cache now env location category = (v, cache, false)) ∧
    (∀ cache now igOutcome location category v,
      freshLookup cache now (normalizeKey location, category) = some v →
      searchInstagramEndpoint cache now igOutcome location category =
        (v, cache, false)) ∧
    (∀ cache now fwOutcome location igUsername v,
      freshLookup cache now (normalizeKey igUsername, normalizeKey location) = some v →
      searchFolloweesEndpoint cache now fwOutcome location igUsername =
        (v, cache, false)) ∧
    (∀ cache t0 t1 env env2 location category,
      freshLookup cache t0 (normalizeKey location, category) = none →
      t1 - t0 < cacheTTL →
      searchPlaces (searchPlaces cache t0 env location category).2.1 t1 env2
          location category =
        ((searchPlaces cache t0 env location category).1,
         (searchPlaces cache t0 env location category).2.1, false)) ∧
    (∀ cache t0 t1 igOutcome igOutcome2 location category,
      freshLookup cache t0 (normalizeKey location, category) = none →
      t1 - t0 < cacheTTL →
      (searchInstagramEndpoint cache t0 igOutcome location category).1 ≠ [] →
      searchInstagramEndpoint
          (searchInstagramEndpoint cache t0 igOutcome location category).2.1 t1
          igOutcome2 location category =
        ((searchInstagramEndpoint cache t0 igOutcome location category).1,
         (searchInstagramEndpoint cache t0 igOutcome location category).2.1,
         false)) := by
  refine ⟨?_, ?_, ?_, ?_, ?_⟩
  · exact searchPlaces_of_hit
  · exact searchIg_of_hit
  · exact searchFw_of_hit
  · intro cache t0 t1 env env2 location category hmiss hfresh
    rw [(searchPlaces_of_miss cache t0 env location category hmiss).1]
    apply searchPlaces_of_hit
    rw [freshLookup_cacheInsert, if_pos hfresh]
  · intro cache t0 t1 igOutcome igOutcome2 location category hmiss hfresh hne
    have hne2 : igFetchedPosts igOutcome ≠ [] := by
      intro hE
      exact hne (by rw [searchIg_of_miss_empty cache t0 igOutcome location category hmiss hE])
    rw [searchIg_of_miss_nonempty cache t0 igOutcome location category hmiss hne2]
    apply searchIg_of_hit
    rw [freshLookup_cacheInsert, if_pos hfresh]

/-- C5 witness: a concrete fresh hit on each handler and both two-request
scenarios, evaluated. -/
theorem c5_fresh_hit_serves_cache_witness :
    (searchPlaces
        [(("paris", "all"),
          ((5 : Int),
           { location := "paris", category := "all", location_lat := none,
             location_lon := none, yelp_businesses := [], osm_eat := [],
             osm_do := [], osm_sleep := [],
             warnings := ["w"] : PlacesResponse }))]
        6 { geoOutcome := none, osmOutcome := none } "Paris" "all" =
      ({ location := "paris", category := "all", location_lat := none,
         location_lon := none, yelp_businesses := [], osm_eat := [],
         osm_do := [], osm_sleep := [], warnings := ["w"] : PlacesResponse },
       [(("paris", "all"),
         ((5 : Int),
          { location := "paris", category := "all", location_lat := none,
            location_lon := none, yelp_businesses := [], osm_eat := [],
            osm_do := [], osm_sleep := [],
            warnings := ["w"] : PlacesResponse }))], false)) ∧
    (searchInstagramEndpoint [(("paris", "all"), ((5 : Int), []))] 6 none
        "Paris" "all" = ([], [(("paris", "all"), ((5 : Int), []))], false)) ∧
    (searchFolloweesEndpoint [(("bob", "paris"), ((5 : Int), []))] 6 none
        "Paris" "Bob" = ([], [(("bob", "paris"), ((5 : Int), []))], false)) ∧
    (searchPlaces
        (searchPlaces [] 0 { geoOutcome := none, osmOutcome := none }
          "Paris" "all").2.1 10 { geoOutcome := none, osmOutcome := none }
        "Paris" "all" =
      ((searchPlaces [] 0 { geoOutcome := none, osmOutcome := none }
          "Paris" "all").1,
       (searchPlaces [] 0 { geoOutcome := none, osmOutcome := none }
          "Paris" "all").2.1, false)) := by
  refine ⟨?_, ?_, ?_, ?_⟩
  · exact c5_fresh_hit_serves_cache.1 _ 6 _ "Paris" "all" _ (by decide)
  · exact c5_fresh_hit_serves_cache.2.1 _ 6 none "Paris" "all" _ (by decide)
  · exact c5_fresh_hit_serves_cache.2.2.1 _ 6 none "Paris" "Bob" _ (by decide)
  · exact c5_fresh_hit_serves_cache.2.2.2.1 _ 0 10 _ _ "Paris" "all"
      (by decide) (by decide)

/-- C9: the geocoder checks its process-wide cache under the normalized
(lowercased, trimmed) key first and on a hit returns the cached coordinates
with no network call; on a request failure or an empty result set it
returns `none` and leaves the cache untouched; on success it caches and
returns the first result's coordinates. -/
theorem c9_geocoder_contract :
    (∀ cache httpOutcome location c,
      cacheLookup cache (normalizeKey location) = some c →
      geocode cache httpOutcome location = (some c, cache, false)) ∧
    (∀ cache location e,
      cacheLookup cache (normalizeKey location) = none →
      geocode cache (.error e) location = (none, cache, true)) ∧
    (∀ cache location,
      cacheLookup cache (normalizeKey location) = none →
      geocode cache (.ok []) location = (none, cache, true)) ∧
    (∀ cache location c rest,
      cacheLookup cache (normalizeKey location) = none →
      geocode cache (.ok (c :: rest)) location =
        (some c, cacheInsert cache (normalizeKey location) c, true)) := by
  refine ⟨?_, ?_, ?_, ?_⟩
  · intro cache httpOutcome location c h
    simp [geocode, h]
  · intro cache location e h
    simp [geocode, h]
  · intro cache location h
    simp [geocode, h]
  · intro cache location c rest h
    simp [geocode, h]

/-- C9 witness: the four geocoder behaviours evaluated at concrete
caches, outcomes and locations. -/
theorem c9_geocoder_contract_witness :
    (geocode [("paris", ((1 : ℚ), (2 : ℚ)))] (.error "boom") " Paris " =
      (some ((1 : ℚ), (2 : ℚ)), [("paris", ((1 : ℚ), (2 : ℚ)))], false)) ∧
    (geocode [] (.error "boom") "Paris" = (none, [], true)) ∧
    (geocode [] (.ok []) "Paris" = (none, [], true)) ∧
    (geocode [] (.ok [((3 : ℚ), (4 : ℚ))]) "Paris" =
      (some ((3 : ℚ), (4 : ℚ)), [("paris", ((3 : ℚ), (4 : ℚ)))], true)) := by
  refine ⟨?_, ?_, ?_, ?_⟩
  · exact c9_geocoder_contract.1 _ _ " Paris " _ (by decide)
  · exact c9_geocoder_contract.2.1 _ "Paris" _ (by decide)
  · exact c9_geocoder_contract.2.2.1 _ "Paris" (by decide)
  · exact c9_geocoder_contract.2.2.2 _ "Paris" _ _ (by decide)

theorem contactedMirrors_of_prefix_fail
    (fetch : String → Except String (List OsmElement)) :
    ∀ (l1 : List String) (m : String) (l2 : List String),
      (∀ u ∈ l1, ∃ e, fetch u = .error e) →
      (∃ els, fetch m = .ok els) →
      contactedMirrors fetch (l1 ++ m :: l2) = l1 ++ [m] := by
  intro l1
  induction l1 with
  | nil =>
    intro m l2 _ hok
    obtain ⟨els, hm⟩ := hok
    simp [contactedMirrors, hm]
  | cons u rest ih =>
    intro m l2 hfail hok
    obtain ⟨e, he⟩ := hfail u (by simp)
    have := ih m l2 (fun x hx => hfail x (by simp [hx])) hok
    simp [contactedMirrors, he, this]

theorem tryMirrors_of_prefix_fail
    (fetch : String → Except String (List OsmElement)) :
    ∀ (l1 : List String) (m : String) (l2 : List String) (els : List OsmElement),
      (∀ u ∈ l1, ∃ e, fetch u = .error e) →
      fetch m = .ok els →
      ∀ acc, tryMirrors fetch (l1 ++ m :: l2) acc = .ok els := by
  intro l1
  induction l1 with
  | nil =>
    intro m l2 els _ hm acc
    simp [tryMirrors, hm]
  | cons u rest ih =>
    intro m l2 els hfail hm acc
    obtain ⟨e, he⟩ := hfail u (by simp)
    have := ih m l2 els (fun x hx => hfail x (by simp [hx])) hm (some e)
    simp [tryMirrors, he, this]

theorem contactedMirrors_all_fail
    (fetch : String → Except String (List OsmElement)) :
    ∀ l : List String,
      (∀ u ∈ l, ∃ e, fetch u = .error e) →
      contactedMirrors fetch l = l := by
  intro l
  induction l with
  | nil => intro _; rfl
  | cons u rest ih =>
    intro hfail
    obtain ⟨e, he⟩ := hfail u (by simp)
    simp [contactedMirrors, he, ih (fun x hx => hfail x (by simp [hx]))]

/-- C6: the map-data adapter tries its fixed ordered list of Overpass
mirrors strictly in order and stops at the first mirror that succeeds —
the contacted mirrors are exactly the failing prefix plus that first
success, and the successful mirror's payload is the one used; when every
mirror fails, all three mirrors were contacted and the adapter returns
empty result lists plus exactly one warning summarizing the last
mirror's failure. -/
theorem c6_mirror_failover :
    (∀ fetch l1 m l2 els,
      overpassMirrors = l1 ++ m :: l2 →
      (∀ u ∈ l1, ∃ e, fetch u = .error e) →
      fetch m = .ok els →
      contactedMirrors fetch overpassMirrors = l1 ++ [m] ∧
      tryMirrors fetch overpassMirrors none = .ok els) ∧
    (∀ fetch coords location category e1 e2 e3,
      fetch "https://overpass-api.de/api/interpreter" = .error e1 →
      fetch "https://overpass.kumi.systems/api/interpreter" = .error e2 →
      fetch "https://maps.mail.ru/osm/tools/overpass/api/interpreter" = .error e3 →
      contactedMirrors fetch overpassMirrors = overpassMirrors ∧
      searchOsm (some coords) fetch location category =
        ([], [], [], ["OpenStreetMap unavailable: " ++ e3], some coords)) := by
  constructor
  · intro fetch l1 m l2 els hsplit hfail hok
    rw [hsplit]
    exact ⟨contactedMirrors_of_prefix_fail fetch l1 m l2 hfail ⟨els, hok⟩,
           tryMirrors_of_prefix_fail fetch l1 m l2 els hfail hok none⟩
  · intro fetch coords location category e1 e2 e3 h1 h2 h3
    constructor
    · simp [overpassMirrors, contactedMirrors, h1, h2, h3]
    · simp [searchOsm, overpassMirrors, tryMirrors, h1, h2, h3]

/-- C6 witness: a fetch oracle whose second mirror succeeds — only the
first two mirrors are contacted and the second one's payload is used —
and a fetch oracle under which all three mirrors fail. -/
theorem c6_mirror_failover_witness :
    (contactedMirrors mirrorSecondOk overpassMirrors =
        ["https://overpass-api.de/api/interpreter",
         "https://overpass.kumi.systems/api/interpreter"] ∧
      tryMirrors mirrorSecondOk overpassMirrors none = .ok []) ∧
    (contactedMirrors mirrorFailAll overpassMirrors = overpassMirrors ∧
      searchOsm (some (1, 2)) mirrorFailAll "paris" "all" =
        ([], [], [],
         ["OpenStreetMap unavailable: 503 Service Unavailable"],
         some (1, 2))) := by
  constructor
  · exact c6_mirror_failover.1 mirrorSecondOk
      ["https://overpass-api.de/api/interpreter"]
      "https://overpass.kumi.systems/api/interpreter"
      ["https://maps.mail.ru/osm/tools/overpass/api/interpreter"] [] rfl
      (by
        intro u hu
        have hu2 : u = "https://overpass-api.de/api/interpreter" := by
          simpa using hu
        exact ⟨"timed out", by rw [hu2]; rfl⟩)
      rfl
  · exact c6_mirror_failover.2 mirrorFailAll (1, 2) "paris" "all"
      "503 Service Unavailable" "503 Service Unavailable" "503 Service Unavailable"
      rfl rfl rfl

/-- C2: for a valid request (location length at least 2, category in the
allowed set) whose cache lookup misses and whose every upstream source
failed or timed out, `search_places` still returns a well-formed response
(the embedding is a total function, so no exception can surface): every
result list is empty and the warnings list holds exactly one warning —
one per failed source, OSM being this endpoint's only source.  The first
two conjuncts show that `search_osm` itself converts its two failure
modes (geocode failure; all mirrors failing) into the empty-plus-one-
warning shape that the third conjunct consumes via `env.osmOutcome`,
whose `none` case is the handler-level timeout default. -/
theorem c2_all_fail_still_wellformed :
    (∀ fetch coords location category,
      (∀ m ∈ overpassMirrors, ∃ e, fetch m = .error e) →
      ∃ w, searchOsm (some coords) fetch location category =
        ([], [], [], [w], some coords)) ∧
    (∀ fetch location category,
      searchOsm none fetch location category =
        ([], [], [],
         ["OpenStreetMap: could not geocode \x27" ++ location ++ "\x27"],
         none)) ∧
    (∀ cache now env location category,
      2 ≤ location.length →
      category ∈ ["all", "eat", "do", "sleep"] →
      freshLookup cache now (normalizeKey location, category) = none →
      (env.osmOutcome = none ∨
        ∃ w c, env.osmOutcome = some ([], [], [], [w], c)) →
      (searchPlaces cache now env location category).1.yelp_businesses = [] ∧
      (searchPlaces cache now env location category).1.osm_eat = [] ∧
      (searchPlaces cache now env location category).1.osm_do = [] ∧
      (searchPlaces cache now env location category).1.osm_sleep = [] ∧
      (searchPlaces cache now env location category).1.warnings.length = 1) := by
  refine ⟨?_, ?_, ?_⟩
  · intro fetch coords location category hfail
    obtain ⟨e1, h1⟩ := hfail "https://overpass-api.de/api/interpreter" (by simp [overpassMirrors])
    obtain ⟨e2, h2⟩ := hfail "https://overpass.kumi.systems/api/interpreter" (by simp [overpassMirrors])
    obtain ⟨e3, h3⟩ := hfail "https://maps.mail.ru/osm/tools/overpass/api/interpreter" (by simp [overpassMirrors])
    exact ⟨"OpenStreetMap unavailable: " ++ e3,
      by simp [searchOsm, overpassMirrors, tryMirrors, h1, h2, h3]⟩
  · intro fetch location category
    simp [searchOsm]
  · intro cache now env location category _ _ hmiss hout
    rcases hout with hto | ⟨w, c, hval⟩
    · simp [searchPlaces, hmiss, hto, withTimeout, osmTimeoutDefault]
    · simp [searchPlaces, hmiss, hval, withTimeout]

/-- C2 witness: the all-mirrors-fail shape of `search_osm`, the
geocode-failure shape, and a concrete valid request served entirely from
timeouts. -/
theorem c2_all_fail_still_wellformed_witness :
    (∃ w, searchOsm (some (1, 2)) mirrorFailAll "paris" "all" =
      ([], [], [], [w], some (1, 2))) ∧
    (searchOsm none mirrorFailAll "paris" "all" =
      ([], [], [],
       ["OpenStreetMap: could not geocode \x27paris\x27"], none)) ∧
    ((searchPlaces [] 0 placesTimeoutEnv "paris" "all").1.yelp_businesses = [] ∧
     (searchPlaces [] 0 placesTimeoutEnv "paris" "all").1.osm_eat = [] ∧
     (searchPlaces [] 0 placesTimeoutEnv "paris" "all").1.osm_do = [] ∧
     (searchPlaces [] 0 placesTimeoutEnv "paris" "all").1.osm_sleep = [] ∧
     (searchPlaces [] 0 placesTimeoutEnv "paris" "all").1.warnings.length = 1) := by
  refine ⟨?_, ?_, ?_⟩
  · exact c2_all_fail_still_wellformed.1 mirrorFailAll (1, 2) "paris" "all"
      (fun m _ => ⟨"503 Service Unavailable", rfl⟩)
  · exact c2_all_fail_still_wellformed.2.1 mirrorFailAll "paris" "all"
  · exact c2_all_fail_still_wellformed.2.2 [] 0 placesTimeoutEnv "paris" "all"
      (by decide) (by decide) (by decide) (Or.inl rfl)

/-- C1 counterexample: a `search_places` invocation on an empty cache whose
fetch yielded only timeout fallbacks (empty lists, the timeout warning)
does write its result into `_places_cache` — the entry for the key differs
from the entry before the invocation, so the claim that no handler ever
caches a pure-timeout result is false on `search_places`. -/
theorem c1_counterexample :
    (searchPlaces [] 0 placesTimeoutEnv "paris" "all").1.osm_eat = [] ∧
    (searchPlaces [] 0 placesTimeoutEnv "paris" "all").1.osm_do = [] ∧
    (searchPlaces [] 0 placesTimeoutEnv "paris" "all").1.osm_sleep = [] ∧
    (searchPlaces [] 0 placesTimeoutEnv "paris" "all").1.warnings =
      ["OSM: request timed out"] ∧
    cacheLookup (searchPlaces [] 0 placesTimeoutEnv "paris" "all").2.1
        ("paris", "all") ≠
      cacheLookup ([] : PlacesCache) ("paris", "all") := by
  refine ⟨rfl, rfl, rfl, rfl, ?_⟩
  decide

/-- C1 amended: results produced purely from timeouts/failures are never
cached by `search_instagram_endpoint` and `search_followees_endpoint` —
after an invocation whose fetch yielded no posts, the cache is the same
as before, and any later cache-missing request performs the fetch
again — but `search_places` writes its result to `_places_cache`
unconditionally, including results born purely from timeouts/failures. -/
theorem c1_amended :
    (∀ cache now igOutcome location category,
      freshLookup cache now (normalizeKey location, category) = none →
      (withTimeout igOutcome ([], [])).1 = [] →
      (searchInstagramEndpoint cache now igOutcome location category).2.1 = cache ∧
      (searchInstagramEndpoint cache now igOutcome location category).1 = []) ∧
    (∀ cache now fwOutcome location igUsername,
      freshLookup cache now (normalizeKey igUsername, normalizeKey location) = none →
      (withTimeout fwOutcome ([], [])).1 = [] →
      (searchFolloweesEndpoint cache now fwOutcome location igUsername).2.1 = cache ∧
      (searchFolloweesEndpoint cache now fwOutcome location igUsername).1 = []) ∧
    (∀ cache now igOutcome location category,
      freshLookup cache now (normalizeKey location, category) = none →
      (searchInstagramEndpoint cache now igOutcome location category).2.2 = true) ∧
    (∀ cache now env location category,
      freshLookup cache now (normalizeKey location, category) = none →
      (searchPlaces cache now env location category).2.1 =
        cacheInsert cache (normalizeKey location, category)
          (now, (searchPlaces cache now env location category).1)) := by
  refine ⟨?_, ?_, ?_, ?_⟩
  · intro cache now igOutcome location category hmiss hE
    have hfe : igFetchedPosts igOutcome = [] := by
      simp [igFetchedPosts, hE, sortByLikesDesc]
    rw [searchIg_of_miss_empty cache now igOutcome location category hmiss hfe]
    exact ⟨rfl, rfl⟩
  · intro cache now fwOutcome location igUsername hmiss hE
    have hfe : igFetchedPosts fwOutcome = [] := by
      simp [igFetchedPosts, hE, sortByLikesDesc]
    rw [searchFw_of_miss_empty cache now fwOutcome location igUsername hmiss hfe]
    exact ⟨rfl, rfl⟩
  · intro cache now igOutcome location category hmiss
    by_cases hE : igFetchedPosts igOutcome = []
    · rw [searchIg_of_miss_empty cache now igOutcome location category hmiss hE]
    · rw [searchIg_of_miss_nonempty cache now igOutcome location category hmiss hE]
  · intro cache now env location category hmiss
    exact (searchPlaces_of_miss cache now env location category hmiss).1

/-- C1 amended witness: the Instagram and followees handlers leave an
empty cache empty after a pure-timeout fetch, a later request still
fetches, and `search_places` caches its pure-timeout result. -/
theorem c1_amended_witness :
    ((searchInstagramEndpoint [] 0 none "paris" "all").2.1 = ([] : IgCache) ∧
     (searchInstagramEndpoint [] 0 none "paris" "all").1 = []) ∧
    ((searchFolloweesEndpoint [] 0 none "paris" "bob").2.1 = ([] : IgCache) ∧
     (searchFolloweesEndpoint [] 0 none "paris" "bob").1 = []) ∧
    ((searchInstagramEndpoint [] 0 none "paris" "all").2.2 = true) ∧
    ((searchPlaces [] 0 placesTimeoutEnv "paris" "all").2.1 =
      cacheInsert [] (normalizeKey "paris", "all")
        (0, (searchPlaces [] 0 placesTimeoutEnv "paris" "all").1)) := by
  refine ⟨?_, ?_, ?_, ?_⟩
  · exact c1_amended.1 [] 0 none "paris" "all" (by decide) rfl
  · exact c1_amended.2.1 [] 0 none "paris" "bob" (by decide) rfl
  · exact c1_amended.2.2.1 [] 0 none "paris" "all" (by decide)
  · exact c1_amended.2.2.2 [] 0 placesTimeoutEnv "paris" "all" (by decide)

/-- C3 counterexample: an element tagged both `amenity=restaurant` (eat
membership) and `tourism=hotel` (sleep membership) is placed in "eat" by
the code's check order, and would be placed in "sleep" if the membership
sets were checked in the opposite order — so the bucket assignment does
depend on the check order, and an element whose tourism tag is in the
sleep set is not always routed to "sleep". -/
theorem c3_counterexample :
    eatTest dualTagElement ∧
    sleepTest dualTagElement ∧
    classifyElement dualTagElement = Bucket.eat ∧
    classifyElementSleepFirst dualTagElement = Bucket.sleep ∧
    classifyElement dualTagElement ≠ classifyElementSleepFirst dualTagElement := by
  decide

/-- C3 amended: the classification is total — `partitionElements` routes
every element to exactly one bucket, the one `classifyElement` assigns —
with `amenity ∈` eat set routed to "eat", `tourism ∈` sleep set routed to
"sleep" only when the eat test fails (the eat check runs first, so an
element matching both sets goes to "eat"), and everything else to the
fallback "do" bucket; the assignment is independent of the check order
exactly for elements that do not match both membership sets. -/
theorem c3_amended :
    (∀ el, eatTest el → classifyElement el = Bucket.eat) ∧
    (∀ el, ¬ eatTest el → sleepTest el → classifyElement el = Bucket.sleep) ∧
    (∀ el, ¬ eatTest el → ¬ sleepTest el →
      classifyElement el = Bucket.activities) ∧
    (∀ el, ¬ (eatTest el ∧ sleepTest el) →
      classifyElement el = classifyElementSleepFirst el) ∧
    (∀ els,
      (partitionElements els).1 =
        els.filter (fun el => decide (classifyElement el = Bucket.eat)) ∧
      (partitionElements els).2.1 =
        els.filter (fun el => decide (classifyElement el = Bucket.sleep)) ∧
      (partitionElements els).2.2 =
        els.filter (fun el => decide (classifyElement el = Bucket.activities))) := by
  refine ⟨?_, ?_, ?_, ?_, ?_⟩
  · intro el h
    simp [classifyElement, h]
  · intro el h1 h2
    simp [classifyElement, h1, h2]
  · intro el h1 h2
    simp [classifyElement, h1, h2]
  · intro el h
    by_cases he : eatTest el
    · have hs : ¬ sleepTest el := fun hs => h ⟨he, hs⟩
      simp [classifyElement, classifyElementSleepFirst, he, hs]
    · by_cases hs : sleepTest el <;>
        simp [classifyElement, classifyElementSleepFirst, he, hs]
  · intro els
    induction els with
    | nil => exact ⟨rfl, rfl, rfl⟩
    | cons el rest ih =>
      obtain ⟨ih1, ih2, ih3⟩ := ih
      by_cases he : eatTest el
      · simp [partitionElements, he, classifyElement, ih1, ih2, ih3]
      · by_cases hs : sleepTest el <;>
          simp [partitionElements, he, hs, classifyElement, ih1, ih2, ih3]

/-- C3 amended witness: the routing facts and the order-independence
evaluated at concrete elements, and the partition of a concrete element
list. -/
theorem c3_amended_witness :
    classifyElement eatOnlyElement = Bucket.eat ∧
    classifyElement sleepOnlyElement = Bucket.sleep ∧
    classifyElement plainElement = Bucket.activities ∧
    classifyElement plainElement = classifyElementSleepFirst plainElement ∧
    (partitionElements [eatOnlyElement, sleepOnlyElement, plainElement]).1 =
      [eatOnlyElement, sleepOnlyElement, plainElement].filter
        (fun el => decide (classifyElement el = Bucket.eat)) := by
  refine ⟨?_, ?_, ?_, ?_, ?_⟩
  · exact c3_amended.1 eatOnlyElement (by decide)
  · exact c3_amended.2.1 sleepOnlyElement (by decide) (by decide)
  · exact c3_amended.2.2.1 plainElement (by decide) (by decide)
  · exact c3_amended.2.2.2.1 plainElement (by decide)
  · exact (c3_amended.2.2.2.2 [eatOnlyElement, sleepOnlyElement, plainElement]).1

/-- C4 counterexample: with an upstream payload listing record A (rating
5.0, 1 review) before record B (rating 4.0, 200 reviews), the adapter
returns A before B — it applies no popularity-blend sort, so B does not
appear before A and the claimed `rating × log10(review_count + 1)`
descending order is violated (the blend scores are ≈5×0.301=1.5 for A and
≈4×2.3=9.2 for B). -/
theorem c4_counterexample :
    (searchYelp "k" (.ok [rawFiveStarOneReview, rawFourStarManyReviews])
        "tel aviv" "restaurants").1 =
      [parseBusiness rawFiveStarOneReview, parseBusiness rawFourStarManyReviews] ∧
    ¬ ((searchYelp "k" (.ok [rawFiveStarOneReview, rawFourStarManyReviews])
          "tel aviv" "restaurants").1.indexOf (parseBusiness rawFourStarManyReviews) <
        (searchYelp "k" (.ok [rawFiveStarOneReview, rawFourStarManyReviews])
          "tel aviv" "restaurants").1.indexOf (parseBusiness rawFiveStarOneReview)) := by
  constructor
  · rfl
  · decide

/-- C4 amended: the reviews-source adapter performs no local ranking at
all — with a configured API key and a successful upstream response it
returns the parsed businesses in exactly the upstream order (the request
merely asks the API for `sort_by=rating`); in particular A-before-B in the
upstream payload yields A-before-B in the output. -/
theorem c4_amended :
    ∀ apiKey location category bs,
      apiKey ≠ "" →
      (searchYelp apiKey (.ok bs) location category).1 = bs.map parseBusiness := by
  intro apiKey location category bs h
  simp [searchYelp, h]

/-- C4 amended witness: the adapter's output for a concrete two-record
payload is the parsed records in upstream order. -/
theorem c4_amended_witness :
    (searchYelp "k" (.ok [rawFiveStarOneReview, rawFourStarManyReviews])
        "tel aviv" "restaurants").1 =
      [rawFiveStarOneReview, rawFourStarManyReviews].map parseBusiness := by
  exact c4_amended "k" "tel aviv" "restaurants"
    [rawFiveStarOneReview, rawFourStarManyReviews] (by decide)

theorem fetchedTags_of_prefix_fail (fetchTag : String → List InstagramPost) :
    ∀ (l1 : List String) (t : String) (l2 : List String),
      (∀ u ∈ l1, fetchTag u = []) →
      fetchTag t ≠ [] →
      fetchedTags fetchTag (l1 ++ t :: l2) = l1 ++ [t] := by
  intro l1
  induction l1 with
  | nil =>
    intro t l2 _ hok
    simp [fetchedTags, hok]
  | cons u rest ih =>
    intro t l2 hfail hok
    have hu := hfail u (by simp)
    simp [fetchedTags, hu, ih t l2 (fun x hx => hfail x (by simp [hx])) hok]

theorem fetchedTags_all_fail (fetchTag : String → List InstagramPost) :
    ∀ l : List String,
      (∀ u ∈ l, fetchTag u = []) →
      fetchedTags fetchTag l = l := by
  intro l
  induction l with
  | nil => intro _; rfl
  | cons u rest ih =>
    intro hfail
    have hu := hfail u (by simp)
    simp [fetchedTags, hu, ih (fun x hx => hfail x (by simp [hx]))]

theorem tryTagsFirst_eq_none (fetchTag : String → List InstagramPost) :
    ∀ l : List String,
      tryTagsFirst fetchTag l = none ↔ ∀ t ∈ l, fetchTag t = [] := by
  intro l
  induction l with
  | nil => simp [tryTagsFirst]
  | cons u rest ih =>
    by_cases hu : fetchTag u = [] <;> simp [tryTagsFirst, hu, ih]

theorem searchSyncGo_warnings (fetchTag : String → List InstagramPost)
    (location : String) :
    ∀ (cats seen : List String) (acc : List InstagramPost) (warns : List String),
      (searchSyncGo fetchTag location cats seen acc warns).2 =
        warns ++ (cats.filter fun c =>
          (tryTagsFirst fetchTag ((hashtagsFor location c).take 3)).isNone).map
          (noResultsWarning location) := by
  intro cats
  induction cats with
  | nil => intro seen acc warns; simp [searchSyncGo]
  | cons cat rest ih =>
    intro seen acc warns
    cases htry : tryTagsFirst fetchTag ((hashtagsFor location cat).take 3) with
    | some fetched => simp [searchSyncGo, htry, ih]
    | none => simp [searchSyncGo, htry, ih]

theorem noResultsWarning_ne_of_length_ne (location : String) {c1 c2 : String}
    (h : c1.length ≠ c2.length) :
    noResultsWarning location c1 ≠ noResultsWarning location c2 := by
  intro heq
  apply h
  have hlen := congrArg String.length heq
  simp only [noResultsWarning, String.length_append] at hlen
  omega

/-- C7 counterexample: for location "paris" and category "eat" the
candidate keywords from `_hashtags_for` are four, ending in `pariscafe`;
under an oracle where only `pariscafe` yields a post, the code — which
tries only the first three candidates — never fetches `pariscafe`,
returns no posts, and still emits the exhaustion warning for the category,
contradicting the claim that the first candidate keyword yielding any
result stops the search and that the warning marks exhaustion of the
candidates. -/
theorem c7_counterexample :
    hashtagsFor "paris" "eat" =
      ["parisfood", "parisfoodie", "pariseats", "pariscafe"] ∧
    fetchOnlyFourth "parisfood" = [] ∧
    fetchOnlyFourth "parisfoodie" = [] ∧
    fetchOnlyFourth "pariseats" = [] ∧
    fetchOnlyFourth "pariscafe" ≠ [] ∧
    "pariscafe" ∉ fetchedTagsForCat fetchOnlyFourth "paris" "eat" ∧
    (searchSync none fetchOnlyFourth "paris").1 = [] ∧
    noResultsWarning "paris" "eat" ∈ (searchSync none fetchOnlyFourth "paris").2 := by
  refine ⟨by decide, rfl, rfl, rfl, by decide, by decide, rfl, by decide⟩

/-- C7 amended: the fallback tries only the first three candidate keywords
of a category, sequentially in their fixed priority order: whenever those
first three split as an all-empty prefix followed by a keyword yielding
results, the fetched keywords are exactly that prefix plus the first
yielding keyword (no later keyword is fetched); when all of the first
three yield nothing they are all fetched, and exactly one warning naming
the location and category is emitted for that category. -/
theorem c7_amended :
    (∀ fetchTag location cat l1 t l2,
      (hashtagsFor location cat).take 3 = l1 ++ t :: l2 →
      (∀ u ∈ l1, fetchTag u = []) →
      fetchTag t ≠ [] →
      fetchedTagsForCat fetchTag location cat = l1 ++ [t]) ∧
    (∀ fetchTag location cat,
      (∀ t ∈ (hashtagsFor location cat).take 3, fetchTag t = []) →
      fetchedTagsForCat fetchTag location cat =
        (hashtagsFor location cat).take 3) ∧
    (∀ fetchTag location cat,
      cat ∈ igCats →
      (∀ t ∈ (hashtagsFor location cat).take 3, fetchTag t = []) →
      ((searchSync none fetchTag location).2).count
        (noResultsWarning location cat) = 1) := by
  refine ⟨?_, ?_, ?_⟩
  · intro fetchTag location cat l1 t l2 hsplit hfail hok
    unfold fetchedTagsForCat
    rw [hsplit]
    exact fetchedTags_of_prefix_fail fetchTag l1 t l2 hfail hok
  · intro fetchTag location cat hfail
    exact fetchedTags_all_fail fetchTag _ hfail
  · intro fetchTag location cat hmem hfail
    have hcat : (tryTagsFirst fetchTag ((hashtagsFor location cat).take 3)).isNone = true := by
      rw [(tryTagsFirst_eq_none fetchTag _).2 hfail]; rfl
    have hwarn : (searchSync none fetchTag location).2 =
        (igCats.filter fun c =>
          (tryTagsFirst fetchTag ((hashtagsFor location c).take 3)).isNone).map
          (noResultsWarning location) := by
      simp [searchSync, searchSyncGo_warnings]
    rw [hwarn]
    have heatdo : noResultsWarning location "do" ≠ noResultsWarning location "eat" :=
      noResultsWarning_ne_of_length_ne location (by decide)
    have heatsl : noResultsWarning location "sleep" ≠ noResultsWarning location "eat" :=
      noResultsWarning_ne_of_length_ne location (by decide)
    have hdoeat : noResultsWarning location "eat" ≠ noResultsWarning location "do" :=
      noResultsWarning_ne_of_length_ne location (by decide)
    have hdosl : noResultsWarning location "sleep" ≠ noResultsWarning location "do" :=
      noResultsWarning_ne_of_length_ne location (by decide)
    have hsleat : noResultsWarning location "eat" ≠ noResultsWarning location "sleep" :=
      noResultsWarning_ne_of_length_ne location (by decide)
    have hsldo : noResultsWarning location "do" ≠ noResultsWarning location "sleep" :=
      noResultsWarning_ne_of_length_ne location (by decide)
    have hmem2 : cat = "eat" ∨ cat = "do" ∨ cat = "sleep" := by
      simpa [igCats] using hmem
    rcases hmem2 with hc | hc | hc <;> subst hc
    · simp only [igCats]
      cases hdo : (tryTagsFirst fetchTag ((hashtagsFor location "do").take 3)).isNone <;>
        cases hsl : (tryTagsFirst fetchTag ((hashtagsFor location "sleep").take 3)).isNone <;>
          simp [List.filter, hcat, hdo, hsl, List.count_cons, heatdo, heatsl]
    · simp only [igCats]
      cases heat : (tryTagsFirst fetchTag ((hashtagsFor location "eat").take 3)).isNone <;>
        cases hsl : (tryTagsFirst fetchTag ((hashtagsFor location "sleep").take 3)).isNone <;>
          simp [List.filter, hcat, heat, hsl, List.count_cons, hdoeat, hdosl]
    · simp only [igCats]
      cases heat : (tryTagsFirst fetchTag ((hashtagsFor location "eat").take 3)).isNone <;>
        cases hdo : (tryTagsFirst fetchTag ((hashtagsFor location "do").take 3)).isNone <;>
          simp [List.filter, hcat, heat, hdo, List.count_cons, hsleat, hsldo]

/-- C7 amended witness: with only the third eat-candidate yielding a post
the first two are fetched and the search stops there; with an oracle
yielding nothing the three tried candidates are exhausted and the eat
warning appears exactly once. -/
theorem c7_amended_witness :
    fetchedTagsForCat fetchThirdOk "paris" "eat" =
      ["parisfood", "parisfoodie", "pariseats"] ∧
    fetchedTagsForCat fetchNone "paris" "eat" =
      ["parisfood", "parisfoodie", "pariseats"] ∧
    ((searchSync none fetchNone "paris").2).count
      (noResultsWarning "paris" "eat") = 1 := by
  refine ⟨?_, ?_, ?_⟩
  · exact c7_amended.1 fetchThirdOk "paris" "eat" ["parisfood", "parisfoodie"]
      "pariseats" [] (by decide)
      (by
        intro u hu
        have : u = "parisfood" ∨ u = "parisfoodie" := by simpa using hu
        rcases this with h | h <;> rw [h] <;> rfl)
      (by decide)
  · exact c7_amended.2.1 fetchNone "paris" "eat" (fun t _ => rfl)
  · exact c7_amended.2.2 fetchNone "paris" "eat" (by decide) (fun t _ => rfl)

theorem mergeFetched_invariant (cat : String) :
    ∀ (fetched : List InstagramPost) (seen : List String) (acc : List InstagramPost),
      ((acc.map fun p => p.shortcode).Nodup) →
      (∀ s ∈ acc.map (fun p => p.shortcode), s ∈ seen) →
      (((mergeFetched cat fetched seen acc).2.map fun p => p.shortcode).Nodup ∧
       ∀ s ∈ (mergeFetched cat fetched seen acc).2.map (fun p => p.shortcode),
         s ∈ (mergeFetched cat fetched seen acc).1) := by
  intro fetched
  induction fetched with
  | nil =>
    intro seen acc h1 h2
    exact ⟨h1, h2⟩
  | cons p rest ih =>
    intro seen acc h1 h2
    by_cases hmem : p.shortcode ∈ seen
    · simpa [mergeFetched, hmem] using ih seen acc h1 h2
    · have hcode : ({ p with post_category := cat } : InstagramPost).shortcode =
          p.shortcode := rfl
      have hnotin : p.shortcode ∉ acc.map (fun p => p.shortcode) :=
        fun hin => hmem (h2 _ hin)
      have h1n : ((acc ++ [({ p with post_category := cat } : InstagramPost)]).map
          fun p => p.shortcode).Nodup := by
        simp only [List.map_append, List.map_cons, List.map_nil, hcode]
        rw [List.nodup_append]
        refine ⟨h1, List.nodup_singleton _, ?_⟩
        intro a ha hb
        rw [List.mem_singleton] at hb
        subst hb
        exact hnotin ha
      have h2n : ∀ s ∈ (acc ++ [({ p with post_category := cat } : InstagramPost)]).map
          (fun p => p.shortcode), s ∈ p.shortcode :: seen := by
        intro s hs
        simp only [List.map_append, List.map_cons, List.map_nil, hcode,
          List.mem_append, List.mem_singleton] at hs
        rcases hs with hs | hs
        · exact List.mem_cons_of_mem _ (h2 s hs)
        · simp [hs]
      simpa [mergeFetched, hmem] using
        ih (p.shortcode :: seen)
          (acc ++ [({ p with post_category := cat } : InstagramPost)]) h1n h2n

theorem searchSyncGo_nodup (fetchTag : String → List InstagramPost)
    (location : String) :
    ∀ (cats seen : List String) (acc : List InstagramPost) (warns : List String),
      ((acc.map fun p => p.shortcode).Nodup) →
      (∀ s ∈ acc.map (fun p => p.shortcode), s ∈ seen) →
      (((searchSyncGo fetchTag location cats seen acc warns).1.map
          fun p => p.shortcode).Nodup) := by
  intro cats
  induction cats with
  | nil =>
    intro seen acc warns h1 _
    simpa [searchSyncGo] using h1
  | cons cat rest ih =>
    intro seen acc warns h1 h2
    cases htry : tryTagsFirst fetchTag ((hashtagsFor location cat).take 3) with
    | none =>
      simpa [searchSyncGo, htry] using ih seen acc _ h1 h2
    | some fetched =>
      obtain ⟨hn, hsub⟩ := mergeFetched_invariant cat fetched seen acc h1 h2
      simpa [searchSyncGo, htry] using
        ih (mergeFetched cat fetched seen acc).1
          (mergeFetched cat fetched seen acc).2 warns hn hsub

/-- C8: in the merged post list returned by `_search_sync`, every post
shortcode occurs at most once, for every login outcome, fetch oracle and
location; and concretely, when the eat-pass tag `parisfood` and the
do-pass tag `paris` both return a post with shortcode `abc`, the merged
list contains that shortcode exactly once, keeping the first-discovered
post (the eat-pass one, stamped with its category). -/
theorem c8_shortcode_unique :
    (∀ loginErr fetchTag location,
      ((searchSync loginErr fetchTag location).1.map fun p => p.shortcode).Nodup) ∧
    fetchDup "parisfood" = [samplePost] ∧
    fetchDup "paris" = [samplePostVariant] ∧
    samplePostVariant.shortcode = samplePost.shortcode ∧
    samplePostVariant ≠ samplePost ∧
    (searchSync none fetchDup "paris").1 =
      [{ samplePost with post_category := "eat" }] := by
  refine ⟨?_, rfl, rfl, rfl, by decide, by decide⟩
  intro loginErr fetchTag location
  cases loginErr with
  | some e => simp [searchSync]
  | none =>
    exact searchSyncGo_nodup fetchTag location igCats [] [] []
      (by simp) (by simp)

end Instamap
